import Mathlib

/-!
Shallow embedding of the HTTP resource-serving and conditional-caching layer
of prologic/rss2twtxt (src/handlers.go), together with the collaborators the
handlers use.  Pure functions of the source become Lean functions; the
filesystem is a snapshot association list; handler side effects on the
artifact store are recorded in an explicit effect trace.  Collaborators whose
code is not part of src/ (the external feed validator, config persistence,
the accept-header negotiation library, the identicon generator, the HTML
templates, the mux router) enter either as explicit parameters carrying their
outcome or as definitions marked "Modelled from the spec".  Machine time is
modelled as whole seconds plus a sub-second component since the Unix epoch,
displayed in UTC.
-/

/-- HTTP request method, as distinguished by the handlers. -/
inductive Method where
  | get
  | head
  | post
  | other
deriving DecidableEq

/-- Inbound request: the mux path variable `name`, `r.RequestURI`, and the
`If-None-Match` header; Go's `Header.Get` returns the empty string when the
header is absent, so absence is the empty string here as in the source. -/
structure Req where
  method : Method
  name : String
  uri : String
  ifNoneMatch : String
deriving DecidableEq

/-- Metadata and content of one stored artifact: byte content (bytes as
chars), and the modification time split into whole seconds since the Unix
epoch and the sub-second remainder. -/
structure FInfo where
  content : String
  modSec : Nat
  modNSec : Nat
deriving DecidableEq

/-- Filesystem snapshot: path to file info. -/
abbrev FS := List (String × FInfo)

/-- Lookup of a path in the snapshot. -/
def fsFind : FS → String → Option FInfo
  | [], _ => none
  | (p, fi) :: rest, q => if p = q then some fi else fsFind rest q

/-- FileExists from the repository's utils (os.Stat succeeding). -/
def FileExists (fs : FS) (p : String) : Bool := (fsFind fs p).isSome

/-- Response header map; Go's Header().Set replaces any existing value. -/
def setH : List (String × String) → String → String → List (String × String)
  | [], k, v => [(k, v)]
  | (k', v') :: t, k, v => if k' = k then (k, v) :: t else (k', v') :: setH t k v

/-- Header lookup, for stating properties of responses. -/
def getH : List (String × String) → String → Option String
  | [], _ => none
  | (k', v') :: t, k => if k' = k then some v' else getH t k

/-- Observable HTTP response: status, headers, body bytes. -/
structure Resp where
  status : Nat
  headers : List (String × String)
  body : String
deriving DecidableEq

/-- Store/collaborator operations a handler performs, in order: an existence
probe or os.Stat on a path, an os.Open, an identicon generation, a config
save. -/
inductive Eff where
  | statF (path : String)
  | openF (path : String)
  | gen (seed : String)
  | save
deriving DecidableEq

/-- Go net/http http.Error: sets Content-Type and X-Content-Type-Options,
writes the status code and the message followed by a newline. -/
def httpError (hs : List (String × String)) (msg : String) (code : Nat) : Resp :=
  { status := code
    headers := setH (setH hs "Content-Type" "text/plain; charset=utf-8")
      "X-Content-Type-Options" "nosniff"
    body := msg ++ "\n" }

/-- Character for a decimal digit. -/
def digitChar (d : Nat) : Char := Char.ofNat (48 + d)

/-- Two-digit zero-padded decimal rendering, as used by the stdlib time
formats for month, day, hour, minute and second fields. -/
def pad2 (n : Nat) : List Char := [digitChar (n / 10), digitChar (n % 10)]

/-- Big-endian decimal digits of `n`, with explicit fuel (structural, so the
kernel can evaluate it); `digitsFuel n n` renders `n` fully. -/
def digitsFuel : Nat → Nat → List Char
  | 0, _ => []
  | fuel+1, n => if n = 0 then [] else digitsFuel fuel (n / 10) ++ [digitChar (n % 10)]

/-- Decimal rendering of a natural number (Content-Length values and the
like). -/
def natStr (n : Nat) : String :=
  if n = 0 then "0" else String.mk (digitsFuel n n)

/-- Year field of the stdlib time formats: decimal digits left-padded with
zeros to at least four characters. -/
def yearDigits (y : Nat) : List Char :=
  List.replicate (4 - (digitsFuel y y).length) '0' ++ digitsFuel y y

/-- Year of era from day of era, in Hinnant's civil-from-days algorithm. -/
def hinYoe (doe : Nat) : Nat := (doe - doe/1460 + doe/36524 - doe/146096) / 365

/-- First day of era of a year of era. -/
def hinStart (yoe : Nat) : Nat := 365*yoe + yoe/4 - yoe/100

/-- Day of year from day of era. -/
def hinDoy (doe : Nat) : Nat := doe - hinStart (hinYoe doe)

/-- March-based month index from day of year. -/
def hinMp (doy : Nat) : Nat := (5*doy + 2) / 153

/-- Civil date (year, month, day) from a count of days since the Unix epoch,
following the days-from-civil inverse used by the stdlib time package
(Howard Hinnant's algorithm, era = 400 Gregorian years = 146097 days). -/
def civilFromDays (z : Nat) : Nat × Nat × Nat :=
  let doe := (z + 719468) % 146097
  let era := (z + 719468) / 146097
  let yoe := hinYoe doe
  let doy := hinDoy doe
  let mp := hinMp doy
  let d := doy - (153*mp + 2)/5 + 1
  let m := if mp < 10 then mp + 3 else mp - 9
  (if m ≤ 2 then yoe + era * 400 + 1 else yoe + era * 400, m, d)

/-- Date-and-time tail of an RFC3339 instant ("-MM-DDTHH:MM:SSZ"), after the
year field. -/
def dateTail (mo d h mi s : Nat) : List Char :=
  '-' :: (pad2 mo ++ ('-' :: (pad2 d ++ ('T' :: (pad2 h ++
    (':' :: (pad2 mi ++ (':' :: (pad2 s ++ ['Z'])))))))))

/-- Character list of Go's time.Format(time.RFC3339) for a whole-second Unix
timestamp displayed in UTC ("2006-01-02T15:04:05Z07:00"; sub-second precision
is not part of this format). -/
def rfc3339Chars (sec : Nat) : List Char :=
  yearDigits (civilFromDays (sec / 86400)).1 ++
    dateTail (civilFromDays (sec / 86400)).2.1 (civilFromDays (sec / 86400)).2.2
      (sec % 86400 / 3600) (sec % 86400 % 3600 / 60) (sec % 86400 % 60)

/-- RFC3339 rendering as a string. -/
def rfc3339 (sec : Nat) : String := String.mk (rfc3339Chars sec)

/-- Month abbreviation of http.TimeFormat. -/
def monthName : Nat → String
  | 1 => "Jan" | 2 => "Feb" | 3 => "Mar" | 4 => "Apr" | 5 => "May" | 6 => "Jun"
  | 7 => "Jul" | 8 => "Aug" | 9 => "Sep" | 10 => "Oct" | 11 => "Nov" | _ => "Dec"

/-- Weekday abbreviation of http.TimeFormat; day 0 since the epoch (1970-01-01)
was a Thursday. -/
def weekdayName : Nat → String
  | 0 => "Sun" | 1 => "Mon" | 2 => "Tue" | 3 => "Wed" | 4 => "Thu" | 5 => "Fri"
  | _ => "Sat"

/-- Go's ModTime().UTC().Format(http.TimeFormat): "Mon, 02 Jan 2006 15:04:05
GMT". -/
def httpTime (sec : Nat) : String :=
  weekdayName ((sec / 86400 + 4) % 7) ++ ", " ++
    String.mk (pad2 (civilFromDays (sec / 86400)).2.2) ++ " " ++
    monthName (civilFromDays (sec / 86400)).2.1 ++ " " ++
    String.mk (yearDigits (civilFromDays (sec / 86400)).1) ++ " " ++
    String.mk (pad2 (sec % 86400 / 3600)) ++ ":" ++
    String.mk (pad2 (sec % 86400 % 3600 / 60)) ++ ":" ++
    String.mk (pad2 (sec % 86400 % 60)) ++ " GMT"

/-- Timestamp-weak ETag of handlers.go lines 182 and 232:
fmt.Sprintf with W/, a quote, the request URI, a dash, the RFC3339 instant,
and a closing quote. -/
def weakEtag (uri : String) (modSec : Nat) : String :=
  "W/\"" ++ uri ++ "-" ++ rfc3339 modSec ++ "\""

/-- Name-only weak ETag of handlers.go line 275: fmt.Sprintf with W/ and the
request URI alone, no timestamp. -/
def nameOnlyEtag (uri : String) : String :=
  "W/\"" ++ uri ++ "\""

/-- Does `s` start with the list `sub`. -/
def leadsWith : List Char → List Char → Bool
  | [], _ => true
  | _ :: _, [] => false
  | a :: as, b :: bs => a = b && leadsWith as bs

/-- Substring containment on character lists (needle first). -/
def containsSub (sub : List Char) : List Char → Bool
  | [] => leadsWith sub []
  | c :: t => leadsWith sub (c :: t) || containsSub sub t

/-- Go strings.Contains(s, sub). -/
def strContains (s sub : String) : Bool := containsSub sub.data s.data

/-- Modelled from the spec: the `mediaDir` constant of the repository's main
package is not under src/; the spec's HTTP surface serves media at a fixed
media sub-directory of the root. -/
def mediaDir : String := "media"

/-- Modelled from the spec: the `avatarResolution` constant of the
repository's main package is not under src/; the spec requires a "fixed
resolution" for generated identicons. -/
def avatarResolution : Nat := 60

/-- Modelled from the spec: the identicon visual algorithm (cameron.Identicon
composed with png.Encode) is out of scope and "treated as an opaque
deterministic function identicon(seed bytes) -> image bytes"; this concrete
deterministic stand-in is keyed by the raw seed bytes and the fixed
resolution and block-grid parameters, exactly the inputs the source passes. -/
def identiconPNG (seed : String) (resolution blocks : Nat) : String :=
  "PNG[" ++ natStr resolution ++ "," ++ natStr blocks ++ "," ++ seed ++ "]"

/-- path/filepath.Join of a root and one relative component, for the clean
single-segment names the handlers receive. -/
def pathJoin (a b : String) : String := a ++ "/" ++ b

/-- path/filepath.Join of a root and two relative components. -/
def pathJoin3 (a b c : String) : String := a ++ "/" ++ b ++ "/" ++ c

/-- App.FeedHandler (handlers.go lines 115-151).  FileExists and os.Stat both
read the same snapshot, so the stat-failure branch of the source (its 500
path) is unreachable here; http.ServeFile re-sets Last-Modified and
Content-Length to the same values already set and streams the file. -/
def feedHandler (root : String) (fs : FS) (r : Req) : Resp × List Eff :=
  match r.method with
  | .get | .head =>
    let hs := setH [] "Content-Type" "text/plain; charset=utf-8"
    if r.name = "" then (httpError hs "Bad Request" 400, [])
    else
      let filename := pathJoin root (r.name ++ ".txt")
      match fsFind fs filename with
      | none => (httpError hs "Feed not found" 404, [Eff.statF filename])
      | some fi =>
        let hs := setH hs "Last-Modified" (httpTime fi.modSec)
        let hs := setH hs "Content-Length" (natStr fi.content.length)
        match r.method with
        | .head => ({ status := 200, headers := hs, body := "" },
            [Eff.statF filename, Eff.statF filename])
        | _ => ({ status := 200, headers := hs, body := fi.content },
            [Eff.statF filename, Eff.statF filename, Eff.openF filename])
  | _ => (httpError [] "Method Not Allowed" 405, [])

/-- App.MediaHandler (handlers.go lines 153-208).  http.ServeContent is the
stdlib streaming collaborator: it sets Last-Modified and Content-Length and
writes the file (its internal re-check of conditional headers is outside
this model).  The source is missing a return after ServeContent, so the
trailing http.Error appends its message to the already-committed GET
response; the superfluous WriteHeader is ignored. -/
def mediaHandler (root : String) (fs : FS) (r : Req) : Resp × List Eff :=
  match r.method with
  | .get | .head =>
    let hs := setH [] "Content-Type" "text/plain"
    if r.name = "" then (httpError hs "Bad Request" 400, [])
    else
      let hs := setH hs "Content-Type" "image/png"
      let fn := pathJoin3 root mediaDir (r.name ++ ".png")
      match fsFind fs fn with
      | none => (httpError hs "Media Not Found" 404, [Eff.statF fn])
      | some fi =>
        let etag := weakEtag r.uri fi.modSec
        if r.ifNoneMatch ≠ "" ∧ strContains r.ifNoneMatch etag = true then
          ({ status := 304, headers := hs, body := "" },
           [Eff.statF fn, Eff.statF fn])
        else
          let hs := setH hs "Etag" etag
          let hs := setH hs "Cache-Control" ("public, max-age=" ++ natStr 7776000)
          match r.method with
          | .head => ({ status := 200, headers := hs, body := "" },
              [Eff.statF fn, Eff.statF fn, Eff.openF fn])
          | _ =>
            let hs := setH hs "Last-Modified" (httpTime fi.modSec)
            let hs := setH hs "Content-Length" (natStr fi.content.length)
            ({ status := 200, headers := hs,
               body := fi.content ++ "Method Not Allowed\n" },
             [Eff.statF fn, Eff.statF fn, Eff.openF fn])
  | _ => (httpError [] "Method Not Allowed" 405, [])

/-- App.AvatarHandler (handlers.go lines 210-300).  The custom-avatar branch
returns for HEAD right after setting Etag, before Content-Length; the second
HEAD check of the source (line 262) is dead code.  In the generated branch
the identicon is produced before the HEAD check, so generation happens for
HEAD as well. -/
def avatarHandler (root : String) (fs : FS) (r : Req) : Resp × List Eff :=
  match r.method with
  | .get | .head =>
    let hs := setH [] "Content-Type" "image/png"
    let hs := setH hs "Cache-Control" "public, no-cache, must-revalidate"
    if r.name = "" then (httpError hs "Bad Request" 400, [])
    else
      let filename := pathJoin root (r.name ++ ".txt")
      match fsFind fs filename with
      | none => (httpError hs "Feed not found" 404, [Eff.statF filename])
      | some _ =>
        let fn := pathJoin root (r.name ++ ".png")
        match fsFind fs fn with
        | some fi =>
          let etag := weakEtag r.uri fi.modSec
          if r.ifNoneMatch ≠ "" ∧ strContains r.ifNoneMatch etag = true then
            ({ status := 304, headers := hs, body := "" },
             [Eff.statF filename, Eff.statF fn])
          else
            let hs := setH hs "Etag" etag
            match r.method with
            | .head => ({ status := 200, headers := hs, body := "" },
                [Eff.statF filename, Eff.statF fn])
            | _ =>
              let hs := setH hs "Content-Length" (natStr fi.content.length)
              ({ status := 200, headers := hs, body := fi.content },
               [Eff.statF filename, Eff.statF fn, Eff.openF fn, Eff.statF fn])
        | none =>
          let etag := nameOnlyEtag r.uri
          if r.ifNoneMatch ≠ "" ∧ strContains r.ifNoneMatch etag = true then
            ({ status := 304, headers := hs, body := "" },
             [Eff.statF filename, Eff.statF fn])
          else
            let hs := setH hs "Etag" etag
            let body := identiconPNG r.name avatarResolution 12
            let hs := setH hs "Content-Length" (natStr body.length)
            match r.method with
            | .head => ({ status := 200, headers := hs, body := "" },
                [Eff.statF filename, Eff.statF fn, Eff.gen r.name])
            | _ => ({ status := 200, headers := hs, body := body },
                [Eff.statF filename, Eff.statF fn, Eff.gen r.name])
  | _ => (httpError [] "Method Not Allowed" 405, [])

example : rfc3339 0 = "1970-01-01T00:00:00Z" := by decide

example : weakEtag "/media/x" 0 = "W/\"/media/x-1970-01-01T00:00:00Z\"" := by decide

example : strContains "abcd" "bc" = true := by decide

example : strContains "" "b" = false := by decide

/-- Feed registry entry, as in the repository (Feed with Name and URL). -/
structure Feed where
  name : String
  url : String
deriving DecidableEq

/-- Modelled from the spec: the message HTML template (templates.go, not
under src/) is incidental plumbing; concrete deterministic stand-in. -/
def messagePage (title message : String) : String :=
  "<html>" ++ title ++ ": " ++ message ++ "</html>"

/-- renderMessage of handlers.go lines 30-44.  The `status` argument is
accepted but never used by the source: no WriteHeader call is made, so the
rendered message goes out with the default 200 status.  Template execution
cannot fail in this model, so the render-error 500 branch is unreachable. -/
def renderMessage (hs : List (String × String)) (status : Nat)
    (title message : String) : Resp :=
  { status := 200, headers := hs, body := messagePage title message }

/-- POST branch of App.IndexHandler (handlers.go lines 67-111).  ValidateFeed
and conf.Save are collaborators outside src/: the validator's outcome enters
as `vres` (none = no valid RSS/Atom feed found) and persistence's outcome as
`saveOk`.  Returns the response, the in-memory registry after the request,
and the effect trace. -/
def indexPost (feeds : List (String × String)) (url : String)
    (vres : Option Feed) (saveOk : Bool) :
    Resp × List (String × String) × List Eff :=
  if url = "" then
    (renderMessage [] 400 "Error" "No url supplied", feeds, [])
  else
    match vres with
    | none =>
      (renderMessage [] 400 "Error"
        ("Unable to find a valid RSS/Atom feed for: " ++ url), feeds, [])
    | some feed =>
      if (getH feeds feed.name).isSome then
        (renderMessage [] 409 "Error" "Feed alreadyd exists", feeds, [])
      else
        let feeds' := setH feeds feed.name feed.url
        if saveOk then
          (renderMessage [] 201 "Success"
            ("Feed successfully added " ++ feed.name ++ ": " ++ feed.url),
           feeds', [Eff.save])
        else
          (renderMessage [] 500 "Error" "Could not save feed: save error",
           feeds', [Eff.save])

/-- Modelled from the spec: App.GetFeeds (app.go, not under src/) is the
registry's "list() -> sequence of entries"; order is not semantically
significant but is stable within a render. -/
def GetFeeds (feeds : List (String × String)) : List Feed :=
  feeds.map fun p => { name := p.1, url := p.2 }

/-- App.WeAreFeedsHandler (handlers.go lines 302-316): the line-oriented
plain-text listing, one "name url" line per feed. -/
def weAreFeedsHandler (feeds : List (String × String)) (r : Req) : Resp :=
  match r.method with
  | .get | .head =>
    let hs := setH [] "Content-Type" "text/plain"
    match r.method with
    | .head => { status := 200, headers := hs, body := "" }
    | _ =>
      { status := 200, headers := hs
        body := String.join ((GetFeeds feeds).map fun f =>
          f.name ++ " " ++ f.url ++ "\n") }
  | _ => httpError [] "Method Not Allowed" 405

/-- Modelled from the spec: the feeds HTML template (templates.go, not under
src/) is the "structured (human-oriented) representation"; concrete
deterministic stand-in. -/
def feedsPage (feeds : List Feed) : String :=
  "<html>Available twtxt feeds: " ++
    String.join (feeds.map fun f => f.name ++ " " ++ f.url ++ ";") ++ "</html>"

/-- App.FeedsHandler (handlers.go lines 318-346).  The accept-header
preference resolution (rickb777/accept PreferredContentTypeLike) is a
collaborator outside src/: its result enters as `preferred`, and the source
compares it against "text/plain". -/
def feedsHandler (feeds : List (String × String)) (preferred : String)
    (r : Req) : Resp :=
  match r.method with
  | .get | .head =>
    if preferred = "text/plain" then weAreFeedsHandler feeds r
    else
      let hs := setH [] "Content-Type" "text/html"
      match r.method with
      | .head => { status := 200, headers := hs, body := "" }
      | _ => { status := 200, headers := hs, body := feedsPage (GetFeeds feeds) }
  | _ => httpError [] "Method Not Allowed" 405

/-- Is this name unsafe as a path segment: does it contain a path separator
or a parent-directory sequence. -/
def nameUnsafe (s : String) : Bool :=
  containsSub ['/'] s.data || containsSub ['.', '.'] s.data

/-- Modelled from the spec: the HTTP router (gorilla/mux wiring in app.go,
not under src/) extracts the name path variable; "an implementation MUST
reject names containing path-separator or parent-directory sequences before
calling the store, since that check is part of the boundary the store
depends on". -/
def routeName (raw : String) : Option String :=
  if nameUnsafe raw then none else some raw

/-- Feed endpoint behind the modelled router. -/
def routedFeedHandler (root : String) (fs : FS) (raw : String) (r : Req) :
    Resp × List Eff :=
  match routeName raw with
  | none => (httpError [] "Not Found" 404, [])
  | some n => feedHandler root fs { r with name := n }

/-- Media endpoint behind the modelled router. -/
def routedMediaHandler (root : String) (fs : FS) (raw : String) (r : Req) :
    Resp × List Eff :=
  match routeName raw with
  | none => (httpError [] "Not Found" 404, [])
  | some n => mediaHandler root fs { r with name := n }

/-- Avatar endpoint behind the modelled router. -/
def routedAvatarHandler (root : String) (fs : FS) (raw : String) (r : Req) :
    Resp × List Eff :=
  match routeName raw with
  | none => (httpError [] "Not Found" 404, [])
  | some n => avatarHandler root fs { r with name := n }

/-- Outcome observed by one registration caller. -/
inductive Outcome where
  | conflict
  | created
deriving DecidableEq

/-- One in-flight registration request, reduced to its shared-state steps:
program counter 0 = about to run the existence check of handlers.go line 87,
1 = about to run the map insert of line 95, 2 = about to run conf.Save() of
line 96, 3 = finished with outcome `out`.  URL validation touches no shared
state and is elided. -/
structure RegThread where
  feed : Feed
  pc : Nat
  out : Option Outcome
deriving DecidableEq

/-- One atomic step of a registration thread against the shared in-memory
registry.  The source takes no lock around check-insert-save, so each line
is its own atomic step and steps of different requests may interleave.
Persistence succeeds in this model. -/
def stepReg (feeds : List (String × String)) (t : RegThread) :
    List (String × String) × RegThread :=
  match t.pc with
  | 0 =>
    if (getH feeds t.feed.name).isSome then
      (feeds, { t with pc := 3, out := some Outcome.conflict })
    else
      (feeds, { t with pc := 1 })
  | 1 => (setH feeds t.feed.name t.feed.url, { t with pc := 2 })
  | 2 => (feeds, { t with pc := 3, out := some Outcome.created })
  | _ => (feeds, t)

/-- Shared state of two concurrent registration requests. -/
structure RegState where
  feeds : List (String × String)
  t1 : RegThread
  t2 : RegThread
deriving DecidableEq

/-- Scheduler step: true runs thread 1, false runs thread 2. -/
def stepSys (s : RegState) (i : Bool) : RegState :=
  if i then
    { s with feeds := (stepReg s.feeds s.t1).1, t1 := (stepReg s.feeds s.t1).2 }
  else
    { s with feeds := (stepReg s.feeds s.t2).1, t2 := (stepReg s.feeds s.t2).2 }

/-- Run a schedule of interleaved steps. -/
def runSched (s : RegState) : List Bool → RegState
  | [] => s
  | i :: rest => runSched (stepSys s i) rest

example :
    (indexPost [] "http://u" (some { name := "n", url := "http://u" }) false).1.status
      = 200 := by decide

example :
    (weAreFeedsHandler [("alice", "http://a.example/feed")]
      { method := Method.get, name := "", uri := "/feeds", ifNoneMatch := "" }).body
      = "alice http://a.example/feed\n" := by decide

theorem prod3_ext (p q : Nat × Nat × Nat) (h1 : p.1 = q.1) (h2 : p.2.1 = q.2.1)
    (h3 : p.2.2 = q.2.2) : p = q := by
  obtain ⟨a, b, c⟩ := p
  obtain ⟨d, e, f⟩ := q
  simp_all

set_option maxHeartbeats 4000000 in
/-- Correctness envelope of Hinnant's year-of-era formula within one era:
the computed year's first day is at or before the given day, the day of year
stays below 366, and the year of era below 400. -/
theorem hinYoe_facts (doe : Nat) (h : doe < 146097) :
    hinStart (hinYoe doe) ≤ doe ∧ hinDoy doe < 366 ∧ hinYoe doe < 400 := by
  simp only [hinYoe, hinStart, hinDoy]
  generalize hk : (doe - doe/1460 + doe/36524 - doe/146096) / 365 = k
  have hk400 : k ≤ 400 := by omega
  interval_cases k <;> omega

/-- Correctness envelope of the month-from-day-of-year formula. -/
theorem hinMp_facts (doy : Nat) (h : doy < 366) :
    hinMp doy < 12 ∧ (153 * hinMp doy + 2)/5 ≤ doy ∧
      doy - (153 * hinMp doy + 2)/5 + 1 ≤ 31 := by
  simp only [hinMp]
  omega

/-- Month and day bounds of the civil date. -/
theorem civil_bounds (z : Nat) :
    1 ≤ (civilFromDays z).2.1 ∧ (civilFromDays z).2.1 ≤ 12 ∧
      1 ≤ (civilFromDays z).2.2 ∧ (civilFromDays z).2.2 ≤ 31 := by
  obtain ⟨h1, h2, h3⟩ :=
    hinYoe_facts ((z + 719468) % 146097) (Nat.mod_lt _ (by norm_num))
  obtain ⟨m1, m2, m3⟩ := hinMp_facts (hinDoy ((z + 719468) % 146097)) h2
  simp only [civilFromDays]
  split_ifs <;> omega

/-- Hinnant's civil-from-days is injective: the civil date determines the
day count. -/
theorem civilFromDays_inj (z1 z2 : Nat)
    (h : civilFromDays z1 = civilFromDays z2) : z1 = z2 := by
  obtain ⟨a1, b1, c1⟩ :=
    hinYoe_facts ((z1 + 719468) % 146097) (Nat.mod_lt _ (by norm_num))
  obtain ⟨a2, b2, c2⟩ :=
    hinYoe_facts ((z2 + 719468) % 146097) (Nat.mod_lt _ (by norm_num))
  obtain ⟨m1, n1, o1⟩ := hinMp_facts (hinDoy ((z1 + 719468) % 146097)) b1
  obtain ⟨m2, n2, o2⟩ := hinMp_facts (hinDoy ((z2 + 719468) % 146097)) b2
  have d1 : hinDoy ((z1 + 719468) % 146097)
      = (z1 + 719468) % 146097 - hinStart (hinYoe ((z1 + 719468) % 146097)) := rfl
  have d2 : hinDoy ((z2 + 719468) % 146097)
      = (z2 + 719468) % 146097 - hinStart (hinYoe ((z2 + 719468) % 146097)) := rfl
  have s1 : hinStart (hinYoe ((z1 + 719468) % 146097))
      = 365 * hinYoe ((z1 + 719468) % 146097)
        + hinYoe ((z1 + 719468) % 146097) / 4
        - hinYoe ((z1 + 719468) % 146097) / 100 := rfl
  have s2 : hinStart (hinYoe ((z2 + 719468) % 146097))
      = 365 * hinYoe ((z2 + 719468) % 146097)
        + hinYoe ((z2 + 719468) % 146097) / 4
        - hinYoe ((z2 + 719468) % 146097) / 100 := rfl
  simp only [civilFromDays, Prod.mk.injEq] at h
  obtain ⟨hy, hm, hd⟩ := h
  have hmp : hinMp (hinDoy ((z1 + 719468) % 146097))
      = hinMp (hinDoy ((z2 + 719468) % 146097)) := by
    split_ifs at hm <;> omega
  rw [← hmp] at hy
  have hyoe : hinYoe ((z1 + 719468) % 146097) = hinYoe ((z2 + 719468) % 146097)
      ∧ (z1 + 719468) / 146097 = (z2 + 719468) / 146097 := by
    split_ifs at hy <;> constructor <;> omega
  have hdoy : hinDoy ((z1 + 719468) % 146097) = hinDoy ((z2 + 719468) % 146097) := by
    omega
  obtain ⟨hyoe1, hyoe2⟩ := hyoe
  rw [hyoe1] at s1 d1 a1
  rw [hdoy] at d1
  have hdoe : (z1 + 719468) % 146097 = (z2 + 719468) % 146097 := by
    clear hy hm hd hmp hdoy b1 b2 c1 c2 m1 m2 n1 n2 o1 o2 s1 s2 hyoe2
    omega
  clear hy hm hd hmp hdoy a1 a2 b1 b2 c1 c2 m1 m2 n1 n2 o1 o2 d1 d2 s1 s2 hyoe1
  omega

theorem digitChar_inj10 : ∀ a < 10, ∀ b < 10, digitChar a = digitChar b → a = b := by
  decide

theorem digitChar_toNat : ∀ d < 10, (digitChar d).toNat - 48 = d := by decide

/-- Decimal value of a big-endian digit string. -/
def parseNum (cs : List Char) : Nat :=
  cs.foldl (fun a c => a * 10 + (c.toNat - 48)) 0

theorem digitsFuel_foldl :
    ∀ fuel n acc, n ≤ fuel →
      (digitsFuel fuel n).foldl (fun a c => a * 10 + (c.toNat - 48)) acc
        = acc * 10 ^ (digitsFuel fuel n).length + n := by
  intro fuel
  induction fuel with
  | zero =>
    intro n acc h
    interval_cases n
    simp [digitsFuel]
  | succ fuel ih =>
    intro n acc h
    by_cases h0 : n = 0
    · subst h0
      simp [digitsFuel]
    · have hdiv : n / 10 ≤ fuel := by omega
      simp only [digitsFuel, if_neg h0]
      rw [List.foldl_append, ih (n / 10) acc hdiv]
      simp only [List.foldl_cons, List.foldl_nil, List.length_append,
        List.length_cons, List.length_nil]
      rw [digitChar_toNat (n % 10) (by omega), pow_succ, ← mul_assoc]
      omega

theorem parseNum_digitsFuel (n : Nat) : parseNum (digitsFuel n n) = n := by
  have h := digitsFuel_foldl n n 0 (le_refl n)
  simpa [parseNum] using h

theorem parseNum_replicate_zero (k : Nat) (l : List Char) :
    parseNum (List.replicate k '0' ++ l) = parseNum l := by
  induction k with
  | zero => rfl
  | succ k ih =>
    have h0 : (0 : Nat) * 10 + (Char.toNat '0' - 48) = 0 := by decide
    simpa [parseNum, List.replicate_succ, List.foldl_cons, h0] using ih

theorem parseNum_yearDigits (y : Nat) : parseNum (yearDigits y) = y := by
  unfold yearDigits
  rw [parseNum_replicate_zero]
  exact parseNum_digitsFuel y

theorem yearDigits_inj (y1 y2 : Nat) (h : yearDigits y1 = yearDigits y2) :
    y1 = y2 := by
  have h2 := congrArg parseNum h
  rwa [parseNum_yearDigits, parseNum_yearDigits] at h2

theorem dateTail_length (mo d h mi s : Nat) : (dateTail mo d h mi s).length = 16 := by
  simp [dateTail, pad2]

set_option maxHeartbeats 1000000 in
/-- An RFC3339 instant string determines the whole-second timestamp. -/
theorem rfc3339Chars_inj (t1 t2 : Nat)
    (h : rfc3339Chars t1 = rfc3339Chars t2) : t1 = t2 := by
  unfold rfc3339Chars at h
  obtain ⟨hy, ht⟩ := List.append_inj' h (by rw [dateTail_length, dateTail_length])
  have hyear := yearDigits_inj _ _ hy
  simp only [dateTail, pad2, List.cons_append, List.nil_append,
    List.cons.injEq, and_true, true_and] at ht
  obtain ⟨e1, e2, e3, e4, e5, e6, e7, e8, e9, e10⟩ := ht
  obtain ⟨hm1a, hm1b, hd1a, hd1b⟩ := civil_bounds (t1 / 86400)
  obtain ⟨hm2a, hm2b, hd2a, hd2b⟩ := civil_bounds (t2 / 86400)
  have hmo : (civilFromDays (t1 / 86400)).2.1 = (civilFromDays (t2 / 86400)).2.1 := by
    have q1 := digitChar_inj10 _ (by omega) _ (by omega) e1
    have q2 := digitChar_inj10 _ (by omega) _ (by omega) e2
    omega
  have hda : (civilFromDays (t1 / 86400)).2.2 = (civilFromDays (t2 / 86400)).2.2 := by
    have q1 := digitChar_inj10 _ (by omega) _ (by omega) e3
    have q2 := digitChar_inj10 _ (by omega) _ (by omega) e4
    omega
  have hdays := civilFromDays_inj _ _ (prod3_ext _ _ hyear hmo hda)
  have hh : t1 % 86400 / 3600 = t2 % 86400 / 3600 := by
    have q1 := digitChar_inj10 _ (by omega) _ (by omega) e5
    have q2 := digitChar_inj10 _ (by omega) _ (by omega) e6
    omega
  have hmi : t1 % 86400 % 3600 / 60 = t2 % 86400 % 3600 / 60 := by
    have q1 := digitChar_inj10 _ (by omega) _ (by omega) e7
    have q2 := digitChar_inj10 _ (by omega) _ (by omega) e8
    omega
  have hs : t1 % 86400 % 60 = t2 % 86400 % 60 := by
    have q1 := digitChar_inj10 _ (by omega) _ (by omega) e9
    have q2 := digitChar_inj10 _ (by omega) _ (by omega) e10
    omega
  omega

theorem weakEtag_data (uri : String) (m : Nat) :
    (weakEtag uri m).data
      = ((("W/\"".data ++ uri.data) ++ "-".data) ++ rfc3339Chars m) ++ "\"".data := rfl

theorem nameOnlyEtag_data (uri : String) :
    (nameOnlyEtag uri).data = ("W/\"".data ++ uri.data) ++ "\"".data := rfl

/-- The timestamp-weak ETag is injective in the timestamp for a fixed
request URI. -/
theorem weakEtag_inj_sec (uri : String) (m1 m2 : Nat)
    (h : weakEtag uri m1 = weakEtag uri m2) : m1 = m2 := by
  have hd := congrArg String.data h
  rw [weakEtag_data, weakEtag_data] at hd
  obtain ⟨h1, -⟩ := List.append_inj' hd rfl
  exact rfc3339Chars_inj _ _ (List.append_cancel_left h1)

theorem weakEtag_data_ne (uri : String) (m : Nat) : (weakEtag uri m).data ≠ [] := by
  intro h
  rw [weakEtag_data] at h
  have h2 := congrArg List.length h
  have hq : ("\"".data).length = 1 := rfl
  have hw : ("W/\"".data).length = 3 := rfl
  have hm2 : ("-".data).length = 1 := rfl
  simp only [List.length_append, List.length_nil, hq, hw, hm2] at h2
  omega

theorem nameOnlyEtag_data_ne (uri : String) : (nameOnlyEtag uri).data ≠ [] := by
  intro h
  rw [nameOnlyEtag_data] at h
  have h2 := congrArg List.length h
  have hq : ("\"".data).length = 1 := rfl
  have hw : ("W/\"".data).length = 3 := rfl
  simp only [List.length_append, List.length_nil, hq, hw] at h2
  omega

theorem strContains_empty_eq_false (sub : String) (h : sub.data ≠ []) :
    strContains "" sub = false := by
  rw [strContains]
  cases hs : sub.data with
  | nil => exact absurd hs h
  | cons c cs => rfl

theorem inm_cond_iff (inm etag : String) (h : etag.data ≠ []) :
    (inm ≠ "" ∧ strContains inm etag = true) ↔ strContains inm etag = true := by
  constructor
  · exact fun h2 => h2.2
  · intro h2
    refine ⟨?_, h2⟩
    intro he
    rw [he, strContains_empty_eq_false _ h] at h2
    exact Bool.noConfusion h2

/-- C1: the claim says every failing registration leaves the in-memory
registry unchanged and surfaces persistence failure as HTTP 500.  The code
does neither: on a Save failure the in-memory insert is kept (no rollback),
and renderMessage discards its status argument, so the response status is
200, not 500.  Concrete run: empty registry, valid fresh feed, failing
save. -/
theorem c1_save_failure_mutation_and_status :
    (indexPost [] "http://u" (some { name := "n", url := "http://u" }) false).1.status = 200
    ∧ (indexPost [] "http://u" (some { name := "n", url := "http://u" }) false).2.1
        = [("n", "http://u")]
    ∧ [("n", "http://u")] ≠ ([] : List (String × String)) := by
  decide

/-- C2: HEAD and GET do not produce identical headers, and a GET media body
does not match its Content-Length.  For a registered feed "n" with a custom
avatar, GET carries Content-Length while HEAD returns before setting it; for
a media file of three bytes, GET's Content-Length is 3 but the missing
return after ServeContent appends "Method Not Allowed" to the body. -/
theorem c2_head_get_header_divergence :
    getH ((avatarHandler "r"
        [("r/n.txt", FInfo.mk "feed" 0 0), ("r/n.png", FInfo.mk "img" 0 0)]
        { method := Method.get, name := "n", uri := "/avatar/n", ifNoneMatch := "" }).1.headers)
      "Content-Length" = some "3"
    ∧ getH ((avatarHandler "r"
        [("r/n.txt", FInfo.mk "feed" 0 0), ("r/n.png", FInfo.mk "img" 0 0)]
        { method := Method.head, name := "n", uri := "/avatar/n", ifNoneMatch := "" }).1.headers)
      "Content-Length" = none
    ∧ getH ((mediaHandler "r" [("r/media/m.png", FInfo.mk "abc" 0 0)]
        { method := Method.get, name := "m", uri := "/media/m", ifNoneMatch := "" }).1.headers)
      "Content-Length" = some "3"
    ∧ ((mediaHandler "r" [("r/media/m.png", FInfo.mk "abc" 0 0)]
        { method := Method.get, name := "m", uri := "/media/m", ifNoneMatch := "" }).1.body).length
      = 22 := by
  decide

/-- C3: behind the modelled router, a name containing a path separator or a
parent-directory sequence is rejected before any artifact-store operation:
the effect trace of each routed endpoint is empty for such names. -/
theorem c3_unsafe_name_no_store_lookup :
    ∀ (root : String) (fs : FS) (raw : String) (r : Req),
      nameUnsafe raw = true →
      (routedFeedHandler root fs raw r).2 = []
      ∧ (routedMediaHandler root fs raw r).2 = []
      ∧ (routedAvatarHandler root fs raw r).2 = [] := by
  intro root fs raw r h
  simp [routedFeedHandler, routedMediaHandler, routedAvatarHandler, routeName, h]

theorem c3_witness :
    nameUnsafe "../etc/passwd" = true
    ∧ ((routedFeedHandler "r" [] "../etc/passwd"
          { method := Method.get, name := "", uri := "/x", ifNoneMatch := "" }).2 = []
      ∧ (routedMediaHandler "r" [] "../etc/passwd"
          { method := Method.get, name := "", uri := "/x", ifNoneMatch := "" }).2 = []
      ∧ (routedAvatarHandler "r" [] "../etc/passwd"
          { method := Method.get, name := "", uri := "/x", ifNoneMatch := "" }).2 = []) :=
  ⟨by decide,
   c3_unsafe_name_no_store_lookup "r" [] "../etc/passwd"
     { method := Method.get, name := "", uri := "/x", ifNoneMatch := "" } (by decide)⟩

/-- C5 counterexample: two artifacts whose modification timestamps differ
(by a sub-second amount) produce identical media responses, in particular
identical timestamp-weak ETags, refuting the claim that distinct
modification timestamps always yield distinct tokens. -/
theorem c5_subsecond_counterexample :
    FInfo.mk "abc" 5 0 ≠ FInfo.mk "abc" 5 999999999
    ∧ mediaHandler "r" [("r/media/m.png", FInfo.mk "abc" 5 0)]
        { method := Method.get, name := "m", uri := "/media/m", ifNoneMatch := "" }
      = mediaHandler "r" [("r/media/m.png", FInfo.mk "abc" 5 999999999)]
        { method := Method.get, name := "m", uri := "/media/m", ifNoneMatch := "" } := by
  decide

/-- C5 amended: recomputing an ETag for the same request path and unchanged
modification time yields the identical token, and timestamps that differ in
their whole-second value yield distinct timestamp-weak ETags (sub-second
differences are invisible to the RFC3339 second-granularity rendering). -/
theorem c5_etag_determinism_and_second_granularity :
    ∀ (uri : String) (s1 s2 : Nat),
      weakEtag uri s1 = weakEtag uri s1
      ∧ nameOnlyEtag uri = nameOnlyEtag uri
      ∧ (s1 ≠ s2 → weakEtag uri s1 ≠ weakEtag uri s2) := by
  intro uri s1 s2
  exact ⟨rfl, rfl, fun hne he => hne (weakEtag_inj_sec uri s1 s2 he)⟩

theorem c5_witness :
    (0 : Nat) ≠ 1 ∧ weakEtag "/media/m" 0 ≠ weakEtag "/media/m" 1 :=
  ⟨by decide, (c5_etag_determinism_and_second_granularity "/media/m" 0 1).2.2 (by decide)⟩

/-- C8 counterexample: the media Cache-Control max-age is 7776000 seconds,
millions but not tens of millions. -/
theorem c8_max_age_counterexample :
    getH ((mediaHandler "r" [("r/media/m.png", FInfo.mk "abc" 0 0)]
        { method := Method.get, name := "m", uri := "/media/m", ifNoneMatch := "" }).1.headers)
      "Cache-Control" = some ("public, max-age=" ++ natStr 7776000)
    ∧ ("public, max-age=" ++ natStr 7776000) = "public, max-age=7776000"
    ∧ 7776000 < 10000000 := by
  decide

/-- C9: the registration sequence check-insert-save runs without mutual
exclusion, so under the interleaving where both existence checks precede
both inserts, two concurrent registrations of the same name both observe
success, contradicting at-most-one-success; the appended sequential schedule
shows the loser observes Conflict only when the steps do not interleave. -/
theorem c9_both_registrations_succeed_under_interleaving :
    ((runSched
        { feeds := []
          t1 := { feed := { name := "n", url := "u1" }, pc := 0, out := none }
          t2 := { feed := { name := "n", url := "u2" }, pc := 0, out := none } }
        [true, false, true, true, false, false]).t1.out = some Outcome.created
      ∧ (runSched
        { feeds := []
          t1 := { feed := { name := "n", url := "u1" }, pc := 0, out := none }
          t2 := { feed := { name := "n", url := "u2" }, pc := 0, out := none } }
        [true, false, true, true, false, false]).t2.out = some Outcome.created)
    ∧ (runSched
        { feeds := []
          t1 := { feed := { name := "n", url := "u1" }, pc := 0, out := none }
          t2 := { feed := { name := "n", url := "u2" }, pc := 0, out := none } }
        [true, true, true, false, false, false]).t2.out = some Outcome.conflict := by
  decide

/-- C10: for GET and HEAD requests whose name path variable is empty, the
feed, media and avatar handlers answer 400 Bad Request and perform no
artifact-store operation at all. -/
theorem c10_empty_name_rejected_before_store :
    ∀ (root : String) (fs : FS) (r : Req),
      (r.method = Method.get ∨ r.method = Method.head) → r.name = "" →
      ((feedHandler root fs r).1.status = 400 ∧ (feedHandler root fs r).2 = [])
      ∧ ((mediaHandler root fs r).1.status = 400 ∧ (mediaHandler root fs r).2 = [])
      ∧ ((avatarHandler root fs r).1.status = 400 ∧ (avatarHandler root fs r).2 = []) := by
  intro root fs r hm hn
  rcases hm with hg | hg <;>
    simp [feedHandler, mediaHandler, avatarHandler, hg, hn, httpError]

theorem c10_witness :
    ((feedHandler "r" [] { method := Method.get, name := "", uri := "/x", ifNoneMatch := "" }).1.status = 400
      ∧ (feedHandler "r" [] { method := Method.get, name := "", uri := "/x", ifNoneMatch := "" }).2 = [])
    ∧ ((mediaHandler "r" [] { method := Method.get, name := "", uri := "/x", ifNoneMatch := "" }).1.status = 400
      ∧ (mediaHandler "r" [] { method := Method.get, name := "", uri := "/x", ifNoneMatch := "" }).2 = [])
    ∧ ((avatarHandler "r" [] { method := Method.get, name := "", uri := "/x", ifNoneMatch := "" }).1.status = 400
      ∧ (avatarHandler "r" [] { method := Method.get, name := "", uri := "/x", ifNoneMatch := "" }).2 = []) :=
  c10_empty_name_rejected_before_store "r" []
    { method := Method.get, name := "", uri := "/x", ifNoneMatch := "" } (Or.inl rfl) rfl

theorem avatar_generated_resp (root : String) (fs : FS) (r : Req) (fi0 : FInfo)
    (hm : r.method = Method.get ∨ r.method = Method.head) (hn : r.name ≠ "")
    (htxt : fsFind fs (pathJoin root (r.name ++ ".txt")) = some fi0)
    (hpng : fsFind fs (pathJoin root (r.name ++ ".png")) = none)
    (hni : strContains r.ifNoneMatch (nameOnlyEtag r.uri) = false) :
    (avatarHandler root fs r).1.status = 200
    ∧ getH (avatarHandler root fs r).1.headers "Etag" = some (nameOnlyEtag r.uri)
    ∧ (avatarHandler root fs r).1.body
        = (if r.method = Method.get then identiconPNG r.name avatarResolution 12 else "") := by
  have hcnd : ¬(r.ifNoneMatch ≠ "" ∧ strContains r.ifNoneMatch (nameOnlyEtag r.uri) = true) := by
    intro h
    rw [h.2] at hni
    exact Bool.noConfusion hni
  rcases hm with hg | hg <;>
    simp [avatarHandler, hg, hn, htxt, hpng, hcnd, getH, setH]

/-- C4: for media, custom-avatar and generated-avatar requests, the response
is 304 Not Modified with an empty body exactly when the If-None-Match value
contains the current ETag as a substring, and in that case no file is opened
and no identicon is generated. -/
theorem c4_not_modified_iff_etag_contained :
    ∀ (root : String) (fs : FS) (r : Req) (fi fi0 : FInfo),
      (r.method = Method.get ∨ r.method = Method.head) → r.name ≠ "" →
      (fsFind fs (pathJoin3 root mediaDir (r.name ++ ".png")) = some fi →
        (((mediaHandler root fs r).1.status = 304
          ∧ (mediaHandler root fs r).1.body = ""
          ∧ ∀ p, Eff.openF p ∉ (mediaHandler root fs r).2)
          ↔ strContains r.ifNoneMatch (weakEtag r.uri fi.modSec) = true))
      ∧ (fsFind fs (pathJoin root (r.name ++ ".txt")) = some fi0 →
          fsFind fs (pathJoin root (r.name ++ ".png")) = some fi →
        (((avatarHandler root fs r).1.status = 304
          ∧ (avatarHandler root fs r).1.body = ""
          ∧ ∀ p, Eff.openF p ∉ (avatarHandler root fs r).2)
          ↔ strContains r.ifNoneMatch (weakEtag r.uri fi.modSec) = true))
      ∧ (fsFind fs (pathJoin root (r.name ++ ".txt")) = some fi0 →
          fsFind fs (pathJoin root (r.name ++ ".png")) = none →
        (((avatarHandler root fs r).1.status = 304
          ∧ (avatarHandler root fs r).1.body = ""
          ∧ ∀ s, Eff.gen s ∉ (avatarHandler root fs r).2)
          ↔ strContains r.ifNoneMatch (nameOnlyEtag r.uri) = true)) := by
  intro root fs r fi fi0 hm hn
  refine ⟨?_, ?_, ?_⟩
  · intro hfi
    by_cases hc : strContains r.ifNoneMatch (weakEtag r.uri fi.modSec) = true
    · have hcnd : r.ifNoneMatch ≠ "" ∧ strContains r.ifNoneMatch (weakEtag r.uri fi.modSec) = true :=
        (inm_cond_iff _ _ (weakEtag_data_ne _ _)).mpr hc
      refine iff_of_true ?_ hc
      rcases hm with hg | hg <;> simp [mediaHandler, hg, hn, hfi, hcnd]
    · have hcnd : ¬(r.ifNoneMatch ≠ "" ∧ strContains r.ifNoneMatch (weakEtag r.uri fi.modSec) = true) :=
        fun h => hc h.2
      refine iff_of_false ?_ hc
      rcases hm with hg | hg <;> simp [mediaHandler, hg, hn, hfi, hcnd]
  · intro htxt hpng
    by_cases hc : strContains r.ifNoneMatch (weakEtag r.uri fi.modSec) = true
    · have hcnd : r.ifNoneMatch ≠ "" ∧ strContains r.ifNoneMatch (weakEtag r.uri fi.modSec) = true :=
        (inm_cond_iff _ _ (weakEtag_data_ne _ _)).mpr hc
      refine iff_of_true ?_ hc
      rcases hm with hg | hg <;> simp [avatarHandler, hg, hn, htxt, hpng, hcnd]
    · have hcnd : ¬(r.ifNoneMatch ≠ "" ∧ strContains r.ifNoneMatch (weakEtag r.uri fi.modSec) = true) :=
        fun h => hc h.2
      refine iff_of_false ?_ hc
      rcases hm with hg | hg <;> simp [avatarHandler, hg, hn, htxt, hpng, hcnd]
  · intro htxt hpng
    by_cases hc : strContains r.ifNoneMatch (nameOnlyEtag r.uri) = true
    · have hcnd : r.ifNoneMatch ≠ "" ∧ strContains r.ifNoneMatch (nameOnlyEtag r.uri) = true :=
        (inm_cond_iff _ _ (nameOnlyEtag_data_ne _)).mpr hc
      refine iff_of_true ?_ hc
      rcases hm with hg | hg <;> simp [avatarHandler, hg, hn, htxt, hpng, hcnd]
    · have hcnd : ¬(r.ifNoneMatch ≠ "" ∧ strContains r.ifNoneMatch (nameOnlyEtag r.uri) = true) :=
        fun h => hc h.2
      refine iff_of_false ?_ hc
      rcases hm with hg | hg <;> simp [avatarHandler, hg, hn, htxt, hpng, hcnd]

theorem c4_witness :
    strContains (weakEtag "/media/m" 0) (weakEtag "/media/m" 0) = true
    ∧ (mediaHandler "r" [("r/media/m.png", FInfo.mk "abc" 0 0)]
        { method := Method.get, name := "m", uri := "/media/m",
          ifNoneMatch := weakEtag "/media/m" 0 }).1.status = 304 :=
  ⟨by decide,
   (((c4_not_modified_iff_etag_contained "r" [("r/media/m.png", FInfo.mk "abc" 0 0)]
      { method := Method.get, name := "m", uri := "/media/m",
        ifNoneMatch := weakEtag "/media/m" 0 }
      (FInfo.mk "abc" 0 0) (FInfo.mk "" 0 0) (Or.inl rfl) (by decide)).1
      (by decide)).mpr (by decide)).1⟩

/-- C6: an avatar request for a name with no registered feed text answers
404 whatever image files exist; a registered name with no custom image
yields a 200 generated identicon keyed only by the raw name bytes, carrying
the name-only weak ETag, and the generated body bytes agree between any two
invocations for the same name. -/
theorem c6_avatar_resolution :
    ∀ (root : String) (fs fs' : FS) (r r' : Req) (fi0 fi0' : FInfo),
      (r.method = Method.get ∨ r.method = Method.head) → r.name ≠ "" →
      (fsFind fs (pathJoin root (r.name ++ ".txt")) = none →
        (avatarHandler root fs r).1.status = 404)
      ∧ (fsFind fs (pathJoin root (r.name ++ ".txt")) = some fi0 →
          fsFind fs (pathJoin root (r.name ++ ".png")) = none →
          strContains r.ifNoneMatch (nameOnlyEtag r.uri) = false →
          (avatarHandler root fs r).1.status = 200
          ∧ getH (avatarHandler root fs r).1.headers "Etag" = some (nameOnlyEtag r.uri)
          ∧ (r.method = Method.get →
              (avatarHandler root fs r).1.body = identiconPNG r.name avatarResolution 12))
      ∧ (r.method = Method.get → r'.method = Method.get → r'.name = r.name →
          fsFind fs (pathJoin root (r.name ++ ".txt")) = some fi0 →
          fsFind fs (pathJoin root (r.name ++ ".png")) = none →
          strContains r.ifNoneMatch (nameOnlyEtag r.uri) = false →
          fsFind fs' (pathJoin root (r'.name ++ ".txt")) = some fi0' →
          fsFind fs' (pathJoin root (r'.name ++ ".png")) = none →
          strContains r'.ifNoneMatch (nameOnlyEtag r'.uri) = false →
          (avatarHandler root fs r).1.body = (avatarHandler root fs' r').1.body) := by
  intro root fs fs' r r' fi0 fi0' hm hn
  refine ⟨?_, ?_, ?_⟩
  · intro htxt
    rcases hm with hg | hg <;> simp [avatarHandler, hg, hn, htxt, httpError]
  · intro htxt hpng hni
    obtain ⟨h1, h2, h3⟩ := avatar_generated_resp root fs r fi0 hm hn htxt hpng hni
    refine ⟨h1, h2, fun hg => ?_⟩
    rw [h3, if_pos hg]
  · intro hg hg' hname htxt hpng hni htxt' hpng' hni'
    obtain ⟨-, -, h3⟩ := avatar_generated_resp root fs r fi0 hm hn htxt hpng hni
    obtain ⟨-, -, h3'⟩ :=
      avatar_generated_resp root fs' r' fi0' (Or.inl hg') (hname ▸ hn) htxt' hpng' hni'
    rw [h3, h3', if_pos hg, if_pos hg', hname]

theorem c6_witness :
    (avatarHandler "r" [("r/n.png", FInfo.mk "img" 0 0)]
      { method := Method.get, name := "n", uri := "/avatar/n", ifNoneMatch := "" }).1.status = 404
    ∧ (avatarHandler "r" [("r/n.txt", FInfo.mk "feed" 0 0)]
      { method := Method.get, name := "n", uri := "/avatar/n", ifNoneMatch := "" }).1.status = 200 :=
  ⟨(c6_avatar_resolution "r" [("r/n.png", FInfo.mk "img" 0 0)] []
      { method := Method.get, name := "n", uri := "/avatar/n", ifNoneMatch := "" }
      { method := Method.get, name := "n", uri := "/avatar/n", ifNoneMatch := "" }
      (FInfo.mk "" 0 0) (FInfo.mk "" 0 0) (Or.inl rfl) (by decide)).1 (by decide),
   ((c6_avatar_resolution "r" [("r/n.txt", FInfo.mk "feed" 0 0)] []
      { method := Method.get, name := "n", uri := "/avatar/n", ifNoneMatch := "" }
      { method := Method.get, name := "n", uri := "/avatar/n", ifNoneMatch := "" }
      (FInfo.mk "feed" 0 0) (FInfo.mk "" 0 0) (Or.inl rfl) (by decide)).2.1
      (by decide) (by decide) (by decide)).1⟩

/-- C7: if the negotiated best-preferred media type is plain text the feed
list is the line-oriented name-url listing, otherwise the structured HTML
representation; with registry alice to its feed URL, the plain GET body is
exactly the single line followed by a newline. -/
theorem c7_content_negotiation :
    ∀ (feeds : List (String × String)) (preferred : String) (r : Req),
      (r.method = Method.get ∨ r.method = Method.head) →
      (preferred = "text/plain" →
        getH (feedsHandler feeds preferred r).headers "Content-Type" = some "text/plain"
        ∧ (r.method = Method.get →
            (feedsHandler feeds preferred r).body
              = String.join ((GetFeeds feeds).map fun f => f.name ++ " " ++ f.url ++ "\n")))
      ∧ (preferred ≠ "text/plain" →
        getH (feedsHandler feeds preferred r).headers "Content-Type" = some "text/html"
        ∧ (r.method = Method.get →
            (feedsHandler feeds preferred r).body = feedsPage (GetFeeds feeds)))
      ∧ (feedsHandler [("alice", "http://a.example/feed")] "text/plain"
          { method := Method.get, name := "", uri := "/feeds", ifNoneMatch := "" }).body
          = "alice http://a.example/feed\n" := by
  intro feeds preferred r hm
  refine ⟨?_, ?_, by decide⟩
  · intro hp
    subst hp
    rcases hm with hg | hg <;>
      simp [feedsHandler, weAreFeedsHandler, hg, getH, setH]
  · intro hp
    rcases hm with hg | hg <;>
      simp [feedsHandler, hg, hp, getH, setH]

theorem c7_witness :
    getH (feedsHandler [("alice", "http://a.example/feed")] "text/plain"
      { method := Method.get, name := "", uri := "/feeds", ifNoneMatch := "" }).headers
      "Content-Type" = some "text/plain" :=
  ((c7_content_negotiation [("alice", "http://a.example/feed")] "text/plain"
    { method := Method.get, name := "", uri := "/feeds", ifNoneMatch := "" }
    (Or.inl rfl)).1 rfl).1

/-- C8 amended: every full (non-304) media response carries Cache-Control
public with the fixed positive max-age of 7776000 seconds (about ninety
days, millions of seconds), and every GET or HEAD avatar response carries
Cache-Control public, no-cache, must-revalidate. -/
theorem c8_cache_control_policy :
    ∀ (root : String) (fs : FS) (r : Req) (fi : FInfo),
      (r.method = Method.get ∨ r.method = Method.head) →
      (r.name ≠ "" →
        fsFind fs (pathJoin3 root mediaDir (r.name ++ ".png")) = some fi →
        strContains r.ifNoneMatch (weakEtag r.uri fi.modSec) = false →
        getH (mediaHandler root fs r).1.headers "Cache-Control"
          = some "public, max-age=7776000")
      ∧ getH (avatarHandler root fs r).1.headers "Cache-Control"
          = some "public, no-cache, must-revalidate" := by
  intro root fs r fi hm
  have hval : ("public, max-age=" ++ natStr 7776000) = "public, max-age=7776000" := by decide
  constructor
  · intro hn hfi hni
    have hcnd : ¬(r.ifNoneMatch ≠ "" ∧ strContains r.ifNoneMatch (weakEtag r.uri fi.modSec) = true) := by
      intro h
      rw [h.2] at hni
      exact Bool.noConfusion hni
    rcases hm with hg | hg <;>
      simp [mediaHandler, hg, hn, hfi, hcnd, getH, setH, hval]
  · rcases hm with hg | hg <;>
    · by_cases hn : r.name = ""
      · simp [avatarHandler, hg, hn, httpError, getH, setH]
      · rcases htxt : fsFind fs (pathJoin root (r.name ++ ".txt")) with _ | fi0
        · simp [avatarHandler, hg, hn, htxt, httpError, getH, setH]
        · rcases hpng : fsFind fs (pathJoin root (r.name ++ ".png")) with _ | fi1
          · by_cases hc : r.ifNoneMatch ≠ "" ∧ strContains r.ifNoneMatch (nameOnlyEtag r.uri) = true
            · simp [avatarHandler, hg, hn, htxt, hpng, hc, getH, setH]
            · simp [avatarHandler, hg, hn, htxt, hpng, hc, getH, setH]
          · by_cases hc : r.ifNoneMatch ≠ "" ∧ strContains r.ifNoneMatch (weakEtag r.uri fi1.modSec) = true
            · simp [avatarHandler, hg, hn, htxt, hpng, hc, getH, setH]
            · simp [avatarHandler, hg, hn, htxt, hpng, hc, getH, setH]

theorem c8_witness :
    getH ((mediaHandler "r" [("r/media/m.png", FInfo.mk "abc" 0 0)]
        { method := Method.get, name := "m", uri := "/media/m", ifNoneMatch := "" }).1.headers)
      "Cache-Control" = some "public, max-age=7776000"
    ∧ getH ((avatarHandler "r" [("r/n.txt", FInfo.mk "feed" 0 0)]
        { method := Method.get, name := "n", uri := "/avatar/n", ifNoneMatch := "" }).1.headers)
      "Cache-Control" = some "public, no-cache, must-revalidate" :=
  ⟨(c8_cache_control_policy "r" [("r/media/m.png", FInfo.mk "abc" 0 0)]
      { method := Method.get, name := "m", uri := "/media/m", ifNoneMatch := "" }
      (FInfo.mk "abc" 0 0) (Or.inl rfl)).1 (by decide) (by decide) (by decide),
   (c8_cache_control_policy "r" [("r/n.txt", FInfo.mk "feed" 0 0)]
      { method := Method.get, name := "n", uri := "/avatar/n", ifNoneMatch := "" }
      (FInfo.mk "" 0 0) (Or.inl rfl)).2⟩
